import Mathlib

/-!
Weatherly: the lookup lifecycle of `src/App.jsx`.

A shallow embedding of the `App` component of `src/App.jsx`: its four state
cells, the `fetchWeather` submit handler (validation, request, response
normalisation, error handling) and the Clear button handler.

JavaScript values are embedded as the inductive `JSValue`, the text of the
input as its UTF-16 code units; the ECMAScript operations the handler relies
on (`String.prototype.trim`, property reads, optional chaining, `ToNumber`,
`Math.round`, `encodeURIComponent`) are embedded as total functions,
exceptions as `Except JSError`.
-/

namespace Weatherly

/-! ## JavaScript numbers and values -/

/-- A JavaScript Number. A finite double is an exact rational, so the finite
non-zero values and `+0` are `fin q`; `-0`, the infinities and `NaN` are
separate constructors. -/
inductive JSNum where
  | nan
  | posInf
  | negInf
  | negZero
  | fin (q : ℚ)
  deriving DecidableEq

/-- The mathematical value of a Number, when it has one (`-0` has value 0). -/
def JSNum.toRat? : JSNum → Option ℚ
  | .fin q => some q
  | .negZero => some 0
  | _ => none

/-- A JavaScript value as `res.json()` and property reads can produce it.
An object is its list of own properties in source order (a later binding
of a key overrides an earlier one, as in `JSON.parse`). -/
inductive JSValue where
  | undefined
  | null
  | bool (b : Bool)
  | number (n : JSNum)
  | string (s : String)
  | array (items : List JSValue)
  | object (props : List (String × JSValue))

/-- A thrown `Error` object; only its `message` is ever read (line 49). -/
structure JSError where
  message : String
  deriving DecidableEq

/-- What the JavaScript engine fixes and the program does not: the text of
the two `TypeError`s and of the `URIError` the engine itself can raise here,
and the conversions between Strings and Numbers (floating-point parsing and
printing). -/
structure Host where
  stringToNumber : String → JSNum
  numberToString : JSNum → String
  cannotReadMessage : String
  cannotConvertMessage : String
  uriMalformedMessage : String

/-- The property keys the source reads: `.name`, `.sys`, `.country`, `.main`,
`.temp`, `.feels_like`, `.humidity`, `.wind`, `.speed`, `.weather`, `[0]`,
`.description`, `.icon`. None of them is a property of a built-in
prototype. -/
inductive Key where
  | name | sys | country | main | temp | feels_like | humidity
  | wind | speed | weather | idx0 | description | icon
  deriving DecidableEq

/-- The property name a key stands for. -/
def Key.toString : Key → String
  | .name => "name"
  | .sys => "sys"
  | .country => "country"
  | .main => "main"
  | .temp => "temp"
  | .feels_like => "feels_like"
  | .humidity => "humidity"
  | .wind => "wind"
  | .speed => "speed"
  | .weather => "weather"
  | .idx0 => "0"
  | .description => "description"
  | .icon => "icon"

/-- Own-property lookup; the last binding of a key wins. -/
def getOwn : List (String × JSValue) → String → Option JSValue
  | [], _ => none
  | (k, v) :: rest, key =>
    match getOwn rest key with
    | some w => some w
    | none => if k = key then some v else none

/-- The property read `v[k]` on a value that is neither `undefined` nor
`null`, for one of the keys of `Key`: an object yields its own property or
`undefined`; an array or a string has an element at index 0 when it is
non-empty; every other read yields `undefined`. (On `undefined` and `null`,
where no read takes place, the value is `undefined`.) -/
def getV (v : JSValue) (k : Key) : JSValue :=
  match v with
  | .object props => (getOwn props k.toString).getD .undefined
  | .array items => if k = .idx0 then items.head?.getD .undefined else .undefined
  | .string s =>
    if k = .idx0 then
      match s.data with
      | [] => .undefined
      | c :: _ => .string (String.singleton c)
    else .undefined
  | _ => .undefined

/-- The member access `v.k` (or `v[0]`): a `TypeError` when `v` is `undefined`
or `null`, the property read otherwise. -/
def getProp (host : Host) (v : JSValue) (k : Key) : Except JSError JSValue :=
  match v with
  | .undefined => .error ⟨host.cannotReadMessage⟩
  | .null => .error ⟨host.cannotReadMessage⟩
  | _ => .ok (getV v k)

/-- The optional access `v?.k` (or `v?.[0]`): `undefined` when `v` is
`undefined` or `null`, the member access otherwise. -/
def optProp (host : Host) (v : JSValue) (k : Key) : Except JSError JSValue :=
  match v with
  | .undefined => .ok .undefined
  | .null => .ok .undefined
  | _ => getProp host v k

mutual
/-- ECMAScript `ToString`. An object parsed from JSON has no callable own
property, so an own `toString` key hides `Object.prototype.toString` and
the conversion throws; otherwise it yields `"[object Object]"`. An array
is joined with commas by `Array.prototype.join`. -/
def toStringJS (host : Host) : JSValue → Except JSError String
  | .undefined => .ok "undefined"
  | .null => .ok "null"
  | .bool b => .ok (if b then "true" else "false")
  | .number n => .ok (host.numberToString n)
  | .string s => .ok s
  | .array items => joinItems host items
  | .object props =>
    if (getOwn props "toString").isSome then .error ⟨host.cannotConvertMessage⟩
    else .ok "[object Object]"
/-- The body of `Array.prototype.join` with separator `","`: `undefined` and
`null` elements contribute the empty string. -/
def joinItems (host : Host) : List JSValue → Except JSError String
  | [] => .ok ""
  | [x] => itemString host x
  | x :: y :: rest => do
    let a ← itemString host x
    let b ← joinItems host (y :: rest)
    pure (a ++ "," ++ b)
/-- The string one array element contributes to a join. -/
def itemString (host : Host) : JSValue → Except JSError String
  | .undefined => .ok ""
  | .null => .ok ""
  | v => toStringJS host v
end

/-- ECMAScript `ToNumber`: `undefined` is `NaN`, `null` is `+0`, booleans
are 0 and 1, a string is parsed by the host, and an array or object is
first converted to a primitive (its string) and that string parsed. -/
def toNumber (host : Host) : JSValue → Except JSError JSNum
  | .undefined => .ok .nan
  | .null => .ok (.fin 0)
  | .bool b => .ok (.fin (if b then 1 else 0))
  | .number n => .ok n
  | .string s => .ok (host.stringToNumber s)
  | .array items => do
    let s ← toStringJS host (.array items)
    pure (host.stringToNumber s)
  | .object props => do
    let s ← toStringJS host (.object props)
    pure (host.stringToNumber s)

/-- The rounding of `Math.round` on a Number: non-finite values and `-0`
are returned unchanged, a value in `[-0.5, 0)` gives `-0`, and every other
value gives the closest integer, the one closer to `+∞` in the case of a
tie. -/
def roundNumber : JSNum → JSNum
  | .nan => .nan
  | .posInf => .posInf
  | .negInf => .negInf
  | .negZero => .negZero
  | .fin q => if q < 0 ∧ -1 / 2 ≤ q then .negZero else .fin (⌊q + 1 / 2⌋)

/-- The call `Math.round(v)`: `ToNumber`, then rounding. -/
def Math.round (host : Host) (v : JSValue) : Except JSError JSValue := do
  let n ← toNumber host v
  pure (.number (roundNumber n))

/-! ## The query string: `trim` and `encodeURIComponent` -/

/-- The value of the text input, a JavaScript String: the sequence of its
UTF-16 code units, each a number below `2 ^ 16`. A unit in `0xD800..0xDBFF`
is a leading surrogate, one in `0xDC00..0xDFFF` a trailing surrogate; a
surrogate that is not half of a leading-trailing pair is unpaired. -/
abbrev JSString := List Nat

/-- The code units of a well-formed Unicode text: one unit for a character
below `0x10000`, a surrogate pair for any other. -/
def utf16 (s : String) : JSString :=
  s.data.flatMap fun c =>
    if c.toNat < 0x10000 then [c.toNat]
    else [0xD800 + (c.toNat - 0x10000) / 0x400, 0xDC00 + (c.toNat - 0x10000) % 0x400]

/-- The code units `String.prototype.trim` strips: ECMAScript WhiteSpace
(TAB, VT, FF, ZWNBSP and the Unicode space separators) and LineTerminator
(LF, CR, LS, PS). -/
def isWhiteSpace (n : Nat) : Bool :=
  n == 0x09 || n == 0x0A || n == 0x0B || n == 0x0C || n == 0x0D || n == 0x20
    || n == 0xA0 || n == 0x1680 || (0x2000 ≤ n && n ≤ 0x200A)
    || n == 0x2028 || n == 0x2029 || n == 0x202F || n == 0x205F
    || n == 0x3000 || n == 0xFEFF

/-- The call `s.trim()`: strip leading and trailing white space. -/
def trim (s : JSString) : JSString :=
  ((s.dropWhile isWhiteSpace).reverse.dropWhile isWhiteSpace).reverse

/-- A leading (high) surrogate code unit. -/
def isLeadingSurrogate (u : Nat) : Bool :=
  0xD800 ≤ u && u ≤ 0xDBFF

/-- A trailing (low) surrogate code unit. -/
def isTrailingSurrogate (u : Nat) : Bool :=
  0xDC00 ≤ u && u ≤ 0xDFFF

/-- The call `s.isWellFormed()`: no code unit of `s` is an unpaired
surrogate. -/
def isWellFormed : JSString → Bool
  | [] => true
  | [u] => !(isLeadingSurrogate u || isTrailingSurrogate u)
  | u :: v :: rest =>
    if isLeadingSurrogate u then isTrailingSurrogate v && isWellFormed rest
    else !isTrailingSurrogate u && isWellFormed (v :: rest)

/-- The code units `encodeURIComponent` leaves as they are: ASCII letters,
digits, and the marks hyphen, underscore, dot, exclamation mark, tilde,
asterisk, apostrophe and the two parentheses. -/
def isUnreserved (u : Nat) : Bool :=
  (0x41 ≤ u && u ≤ 0x5A) || (0x61 ≤ u && u ≤ 0x7A) || (0x30 ≤ u && u ≤ 0x39)
    || u == 0x2D || u == 0x5F || u == 0x2E || u == 0x21 || u == 0x7E
    || u == 0x2A || u == 0x27 || u == 0x28 || u == 0x29

/-- An upper-case hexadecimal digit. -/
def hexDigit (n : Nat) : Char :=
  if n < 10 then Char.ofNat (48 + n) else Char.ofNat (55 + n)

/-- One octet as `%XX`. -/
def percentOctet (b : Nat) : List Char :=
  ['%', hexDigit (b / 16), hexDigit (b % 16)]

/-- The UTF-8 octets of a code point. -/
def utf8Octets (cp : Nat) : List Nat :=
  if cp < 0x80 then [cp]
  else if cp < 0x800 then [0xC0 + cp / 0x40, 0x80 + cp % 0x40]
  else if cp < 0x10000 then
    [0xE0 + cp / 0x1000, 0x80 + cp / 0x40 % 0x40, 0x80 + cp % 0x40]
  else
    [0xF0 + cp / 0x40000, 0x80 + cp / 0x1000 % 0x40, 0x80 + cp / 0x40 % 0x40,
      0x80 + cp % 0x40]

/-- The code point of a surrogate pair. -/
def pairToCodePoint (lead trail : Nat) : Nat :=
  (lead - 0xD800) * 0x400 + (trail - 0xDC00) + 0x10000

/-- The loop of ECMAScript `Encode` with the unreserved set of
`encodeURIComponent`: an unreserved unit is copied, any other code point is
replaced by the percent-escapes of its UTF-8 octets, and an unpaired
surrogate throws a `URIError`. -/
def encodeUnits (host : Host) : JSString → Except JSError (List Char)
  | [] => .ok []
  | [u] =>
    if isUnreserved u then .ok [Char.ofNat u]
    else if isLeadingSurrogate u || isTrailingSurrogate u then
      .error ⟨host.uriMalformedMessage⟩
    else .ok ((utf8Octets u).flatMap percentOctet)
  | u :: v :: rest =>
    if isUnreserved u then do
      let r ← encodeUnits host (v :: rest)
      pure (Char.ofNat u :: r)
    else if isLeadingSurrogate u then
      if isTrailingSurrogate v then do
        let r ← encodeUnits host rest
        pure ((utf8Octets (pairToCodePoint u v)).flatMap percentOctet ++ r)
      else .error ⟨host.uriMalformedMessage⟩
    else if isTrailingSurrogate u then .error ⟨host.uriMalformedMessage⟩
    else do
      let r ← encodeUnits host (v :: rest)
      pure ((utf8Octets u).flatMap percentOctet ++ r)

/-- The call `encodeURIComponent(s)`; its result is ASCII text. -/
def encodeURIComponent (host : Host) (s : JSString) : Except JSError String := do
  let cs ← encodeUnits host s
  pure ⟨cs⟩

/-! ## The component state and the network -/

/-- The normalised record passed to `setWeather` (lines 38-47). -/
structure Weather where
  name : JSValue
  country : JSValue
  temp : JSValue
  feels_like : JSValue
  humidity : JSValue
  wind : JSValue
  description : JSValue
  icon : JSValue

/-- The four `useState` cells of `App` (lines 12-15); `weather` is `null`
(`none`) or a normalised record. -/
structure State where
  city : JSString
  loading : Bool
  error : String
  weather : Option Weather

/-- The state on mount. -/
def State.initial : State := ⟨[], false, "", none⟩

/-- How the promise of `res.json()` settles. -/
inductive JsonOutcome where
  | rejected (err : JSError)
  | resolved (data : JSValue)

/-- A `Response`: its status and how reading its body as JSON settles. -/
structure Response where
  status : Nat
  json : JsonOutcome

/-- The property `res.ok`: by the Fetch standard, a status in 200..299. -/
def Response.ok (res : Response) : Bool :=
  200 ≤ res.status && res.status ≤ 299

/-- How the promise of `fetch(url)` settles. -/
inductive FetchOutcome where
  | rejected (err : JSError)
  | resolved (res : Response)

/-- The calls an attempt makes on the network layer, in order. -/
inductive Effect where
  | fetch (url : String)
  | json
  deriving DecidableEq

/-- The key of line 17: `import.meta.env.VITE_WEATHER_KEY || ""`. -/
def apiKeyOf (viteWeatherKey : Option String) : String :=
  match viteWeatherKey with
  | some k => if k = "" then "" else k
  | none => ""

/-- The template literal of lines 28-30, the argument of `fetch`: the request
URL, or the `URIError` that `encodeURIComponent(city)` throws. -/
def requestUrl (host : Host) (apiKey : String) (city : JSString) :
    Except JSError String := do
  let q ← encodeURIComponent host city
  pure ("https://api.openweathermap.org/data/2.5/weather?q=" ++ q
    ++ "&units=metric&appid=" ++ apiKey)

/-- The expression `err.message || "Error"` of line 49. -/
def messageOrDefault (err : JSError) : String :=
  if err.message = "" then "Error" else err.message

/-! ## `fetchWeather` -/

/-- The object literal of lines 38-47, its properties evaluated in source
order. -/
def normalize (host : Host) (data : JSValue) : Except JSError Weather := do
  let name ← getProp host data .name
  let country ← optProp host (← getProp host data .sys) .country
  let temp ← Math.round host (← optProp host (← getProp host data .main) .temp)
  let feels_like ← Math.round host (← optProp host (← getProp host data .main) .feels_like)
  let humidity ← optProp host (← getProp host data .main) .humidity
  let wind ← optProp host (← getProp host data .wind) .speed
  let description ←
    optProp host (← optProp host (← getProp host data .weather) .idx0) .description
  let icon ← optProp host (← optProp host (← getProp host data .weather) .idx0) .icon
  pure { name, country, temp, feels_like, humidity, wind, description, icon }

/-- The synchronous part of `fetchWeather`, up to the first `await`: the new
state, and the URL handed to `fetch` when a request is issued. After the
validation of line 21 and the three setters of lines 22-24 the argument of
`fetch` is evaluated inside the `try` (lines 27-31); when
`encodeURIComponent(city)` throws there, `catch` (line 49) and `finally`
(line 51) run at once and no request is issued. (`e?.preventDefault()`
touches none of the four cells.) -/
def submit (host : Host) (apiKey : String) (s : State) : State × Option String :=
  if trim s.city = [] then
    ({ s with error := "Please type a city name." }, none)
  else
    let s1 := { s with loading := true }
    let s2 := { s1 with error := "" }
    let s3 := { s2 with weather := none }
    match requestUrl host apiKey s.city with
    | .ok url => (s3, some url)
    | .error err =>
      let s4 := { s3 with error := messageOrDefault err }
      ({ s4 with loading := false }, none)

/-- The body of the `try` block once `fetch` has settled (lines 27-47): the
calls made on the response, and the record for `setWeather` or the error
thrown. -/
def tryBody (host : Host) (o : FetchOutcome) : List Effect × Except JSError Weather :=
  match o with
  | .rejected err => ([], .error err)
  | .resolved res =>
    if !res.ok then
      if res.status = 404 then ([], .error ⟨"City not found"⟩)
      else ([], .error ⟨"Failed to fetch weather"⟩)
    else
      match res.json with
      | .rejected err => ([.json], .error err)
      | .resolved data => ([.json], normalize host data)

/-- The rest of `fetchWeather` once `fetch` has settled: `try` body, `catch`
(line 49) and `finally` (line 51). -/
def settle (host : Host) (s : State) (o : FetchOutcome) : State × List Effect :=
  let r := tryBody host o
  let s1 :=
    match r.2 with
    | .ok w => { s with weather := some w }
    | .error err => { s with error := messageOrDefault err }
  ({ s1 with loading := false }, r.1)

/-- One whole submit attempt: `fetchWeather` run to completion against a
network that settles the request for `url` as `net url`, no other event
(typing, Clear, a second submit) coming in between. The result is the final
state and the calls made on the network layer. -/
def fetchWeather (host : Host) (apiKey : String) (net : String → FetchOutcome)
    (s : State) : State × List Effect :=
  match submit host apiKey s with
  | (s1, none) => (s1, [])
  | (s1, some url) =>
    let r := settle host s1 (net url)
    (r.1, .fetch url :: r.2)

/-- The Clear button handler (lines 108-112). -/
def clear (s : State) : State :=
  let s1 := { s with weather := none }
  let s2 := { s1 with city := [] }
  { s2 with error := "" }

/-! ## The expected payload -/

/-- The `sys` object of the expected success payload. -/
structure SysInfo where
  country : Option String

/-- The `main` object of the expected success payload. -/
structure MainInfo where
  temp : Option JSNum
  feels_like : Option JSNum
  humidity : Option JSNum

/-- The `wind` object of the expected success payload. -/
structure WindInfo where
  speed : Option JSNum

/-- One element of the `weather` list of the expected success payload. -/
structure Condition where
  description : Option String
  icon : Option String

/-- The expected success payload as the specification describes it (a JSON
object with `name`, `sys.country`, `main.temp`, `main.feels_like`,
`main.humidity`, `wind.speed`, and a `weather` list whose elements have a
`description` and an `icon`), in which any subset of the fields may be
missing: `none` is a missing field. -/
structure Payload where
  name : Option String
  sys : Option SysInfo
  main : Option MainInfo
  wind : Option WindInfo
  weather : Option (List Condition)

/-- The properties of a JSON object from its fields, the missing ones left
out. -/
def fields : List (String × Option JSValue) → List (String × JSValue)
  | [] => []
  | (k, some v) :: rest => (k, v) :: fields rest
  | (_, none) :: rest => fields rest

/-- The JSON object of a `sys` record. -/
def SysInfo.toJS (x : SysInfo) : JSValue :=
  .object (fields [("country", x.country.map .string)])

/-- The JSON object of a `main` record. -/
def MainInfo.toJS (x : MainInfo) : JSValue :=
  .object (fields [("temp", x.temp.map .number), ("feels_like", x.feels_like.map .number),
    ("humidity", x.humidity.map .number)])

/-- The JSON object of a `wind` record. -/
def WindInfo.toJS (x : WindInfo) : JSValue :=
  .object (fields [("speed", x.speed.map .number)])

/-- The JSON object of one weather condition. -/
def Condition.toJS (x : Condition) : JSValue :=
  .object (fields [("description", x.description.map .string), ("icon", x.icon.map .string)])

/-- The JSON value a payload is parsed to. -/
def Payload.toJS (p : Payload) : JSValue :=
  .object (fields [("name", p.name.map .string), ("sys", p.sys.map SysInfo.toJS),
    ("main", p.main.map MainInfo.toJS), ("wind", p.wind.map WindInfo.toJS),
    ("weather", p.weather.map fun l => .array (l.map Condition.toJS))])

/-- A field of the normalised record whose source may be missing: the
source value when present, `undefined` when missing. -/
def orUndefined (x : Option JSValue) : JSValue :=
  x.getD .undefined

/-- Rounding to the nearest integer with ties away from zero, as the
specification words it. -/
def roundHalfAwayFromZero (q : ℚ) : ℤ :=
  if 0 ≤ q then ⌊q + 1 / 2⌋ else -⌊-q + 1 / 2⌋

/-! ## Concrete scenarios -/

/-- A host for the concrete scenarios: the message texts are V8's. None of
the scenarios reaches a conversion between Strings and Numbers, so the two
conversions are never consulted there. -/
def exampleHost : Host where
  stringToNumber := fun _ => .nan
  numberToString := fun _ => ""
  cannotReadMessage := "Cannot read properties of null"
  cannotConvertMessage := "Cannot convert object to primitive value"
  uriMalformedMessage := "URI malformed"

/-- The request URL for the query "London" with the key "key". -/
def londonUrl : String :=
  "https://api.openweathermap.org/data/2.5/weather?q=London&units=metric&appid=key"

/-- The request URL for the query "Oslo" with the key "key". -/
def osloUrl : String :=
  "https://api.openweathermap.org/data/2.5/weather?q=Oslo&units=metric&appid=key"

/-- A query that is not blank and ends in an unpaired leading surrogate: the
letter a followed by the code unit `0xD800`. -/
def loneSurrogateQuery : JSString :=
  [0x61, 0xD800]

/-- The London payload of the end-to-end scenario. The Numbers are written
by their decimal values; the doubles nearest to 15.2 and 14.8 lie within
the same rounding interval. -/
def londonProps : List (String × JSValue) :=
  [("name", .string "London"),
   ("sys", .object [("country", .string "GB")]),
   ("main", .object [("temp", .number (.fin 15.2)), ("feels_like", .number (.fin 14.8)),
      ("humidity", .number (.fin 80))]),
   ("wind", .object [("speed", .number (.fin 3.1))]),
   ("weather", .array [.object [("description", .string "cloudy"), ("icon", .string "04d")]])]

/-- The London record, as a previously displayed result. -/
def londonRecord : Weather :=
  { name := .string "London"
    country := .string "GB"
    temp := .number (.fin 15)
    feels_like := .number (.fin 15)
    humidity := .number (.fin 80)
    wind := .number (.fin 3.1)
    description := .string "cloudy"
    icon := .string "04d" }

/-- A success body whose `main.temp` is the object `{"toString": 1}`. -/
def unconvertibleProps : List (String × JSValue) :=
  [("name", .string "London"),
   ("main", .object [("temp", .object [("toString", .number (.fin 1))]),
      ("feels_like", .number (.fin 14.8))])]

/-- A success body with a name and nothing else. -/
def nameOnlyProps : List (String × JSValue) :=
  [("name", .string "London")]

/-- A success body with a name and a feels_like but no temp. -/
def feelsOnlyProps : List (String × JSValue) :=
  [("name", .string "London"), ("main", .object [("feels_like", .number (.fin 14.8))])]

/-- A success body with temp -2.5 and feels_like 2.5. -/
def halvesProps : List (String × JSValue) :=
  [("name", .string "Oslo"),
   ("main", .object [("temp", .number (.fin (-5 / 2))), ("feels_like", .number (.fin (5 / 2)))])]

/-! ## Basic facts -/

theorem optProp_eq (host : Host) (v : JSValue) (k : Key) :
    optProp host v k = .ok (getV v k) := by
  cases v <;> simp [optProp, getProp, getV]

theorem getProp_object (host : Host) (props : List (String × JSValue)) (k : Key) :
    getProp host (.object props) k = .ok (getV (.object props) k) := rfl

theorem normalize_object (host : Host) (props : List (String × JSValue)) :
    normalize host (.object props) =
      (toNumber host (getV (getV (.object props) .main) .temp)).bind fun t =>
      (toNumber host (getV (getV (.object props) .main) .feels_like)).bind fun f =>
        .ok { name := getV (.object props) .name
              country := getV (getV (.object props) .sys) .country
              temp := .number (roundNumber t)
              feels_like := .number (roundNumber f)
              humidity := getV (getV (.object props) .main) .humidity
              wind := getV (getV (.object props) .wind) .speed
              description := getV (getV (getV (.object props) .weather) .idx0) .description
              icon := getV (getV (getV (.object props) .weather) .idx0) .icon } := by
  simp only [normalize, getProp_object, optProp_eq, Math.round, bind, Except.bind, pure, Except.pure]
  cases toNumber host (getV (getV (.object props) .main) .temp) <;> simp
  cases toNumber host (getV (getV (.object props) .main) .feels_like) <;> simp

theorem trim_eq_empty_iff (s : JSString) :
    trim s = [] ↔ ∀ u ∈ s, isWhiteSpace u = true := by
  have key : ∀ l : List Nat, l.dropWhile isWhiteSpace = [] ↔ ∀ u ∈ l, isWhiteSpace u = true := by
    intro l
    simp [List.dropWhile_eq_nil_iff]
  constructor
  · intro h
    have h2 : (s.dropWhile isWhiteSpace).reverse.dropWhile isWhiteSpace = [] := by
      simpa [trim] using h
    have h3 : ∀ u ∈ s.dropWhile isWhiteSpace, isWhiteSpace u = true := by
      intro u hu
      exact (key _).1 h2 u (List.mem_reverse.2 hu)
    have h4 : (s.dropWhile isWhiteSpace).dropWhile isWhiteSpace = [] := (key _).2 h3
    rw [List.dropWhile_idempotent] at h4
    exact (key _).1 h4
  · intro h
    have h1 : s.dropWhile isWhiteSpace = [] := (key _).2 h
    simp [trim, h1]

theorem unreserved_not_surrogate (u : Nat) (h : isUnreserved u = true) :
    isLeadingSurrogate u = false ∧ isTrailingSurrogate u = false := by
  simp only [isUnreserved, isLeadingSurrogate, isTrailingSurrogate, Bool.or_eq_true,
    Bool.and_eq_true, decide_eq_true_eq, beq_iff_eq, Bool.and_eq_false_iff,
    decide_eq_false_iff_not] at *
  omega

/-- The loop of `encodeURIComponent` succeeds on a well-formed string and
throws the `URIError` on any other. -/
theorem encodeUnits_wellFormed (host : Host) (s : JSString) :
    (isWellFormed s = true → ∃ cs, encodeUnits host s = .ok cs) ∧
    (isWellFormed s = false → encodeUnits host s = .error ⟨host.uriMalformedMessage⟩) := by
  induction s using isWellFormed.induct with
  | case1 => simp [isWellFormed, encodeUnits]
  | case2 u =>
    by_cases hu : isUnreserved u = true
    · have := unreserved_not_surrogate u hu
      simp [isWellFormed, encodeUnits, hu, this.1, this.2]
    · by_cases hs : (isLeadingSurrogate u || isTrailingSurrogate u) = true
      · simp [isWellFormed, encodeUnits, hu, hs]
      · simp [isWellFormed, encodeUnits, hu, hs]
  | case3 u v rest hl ih =>
    have hu : isUnreserved u = false := by
      by_cases hu : isUnreserved u = true
      · have := (unreserved_not_surrogate u hu).1
        simp [hl] at this
      · simpa using hu
    by_cases hv : isTrailingSurrogate v = true
    · constructor
      · intro h
        have hr : isWellFormed rest = true := by simpa [isWellFormed, hl, hv] using h
        obtain ⟨cs, hcs⟩ := ih.1 hr
        exact ⟨(utf8Octets (pairToCodePoint u v)).flatMap percentOctet ++ cs,
          by simp [encodeUnits, hu, hl, hv, hcs, bind, Except.bind, pure, Except.pure]⟩
      · intro h
        have hr : isWellFormed rest = false := by simpa [isWellFormed, hl, hv] using h
        simp [encodeUnits, hu, hl, hv, ih.2 hr, bind, Except.bind]
    · simp [isWellFormed, encodeUnits, hu, hl, hv]
  | case4 u v rest hl ih =>
    have hl2 : isLeadingSurrogate u = false := by simpa using hl
    by_cases hu : isUnreserved u = true
    · have ht := (unreserved_not_surrogate u hu).2
      constructor
      · intro h
        have hr : isWellFormed (v :: rest) = true := by simpa [isWellFormed, hl2, ht] using h
        obtain ⟨cs, hcs⟩ := ih.1 hr
        exact ⟨Char.ofNat u :: cs,
          by simp [encodeUnits, hu, hcs, bind, Except.bind, pure, Except.pure]⟩
      · intro h
        have hr : isWellFormed (v :: rest) = false := by simpa [isWellFormed, hl2, ht] using h
        simp [encodeUnits, hu, ih.2 hr, bind, Except.bind]
    · by_cases ht : isTrailingSurrogate u = true
      · simp [isWellFormed, encodeUnits, hu, hl2, ht]
      · constructor
        · intro h
          have hr : isWellFormed (v :: rest) = true := by
            simpa [isWellFormed, hl2, ht] using h
          obtain ⟨cs, hcs⟩ := ih.1 hr
          exact ⟨(utf8Octets u).flatMap percentOctet ++ cs,
            by simp [encodeUnits, hu, hl2, ht, hcs, bind, Except.bind, pure, Except.pure]⟩
        · intro h
          have hr : isWellFormed (v :: rest) = false := by
            simpa [isWellFormed, hl2, ht] using h
          simp [encodeUnits, hu, hl2, ht, ih.2 hr, bind, Except.bind]

/-- The request URL exists for every well-formed query, and only for those. -/
theorem requestUrl_wellFormed (host : Host) (apiKey : String) (city : JSString) :
    (isWellFormed city = true → ∃ url, requestUrl host apiKey city = .ok url) ∧
    (isWellFormed city = false →
      requestUrl host apiKey city = .error ⟨host.uriMalformedMessage⟩) := by
  constructor
  · intro h
    obtain ⟨cs, hcs⟩ := (encodeUnits_wellFormed host city).1 h
    exact ⟨"https://api.openweathermap.org/data/2.5/weather?q=" ++ String.mk cs
        ++ "&units=metric&appid=" ++ apiKey,
      by simp [requestUrl, encodeURIComponent, hcs, bind, Except.bind, pure, Except.pure]⟩
  · intro h
    simp [requestUrl, encodeURIComponent, (encodeUnits_wellFormed host city).2 h, bind,
      Except.bind]

theorem requestUrl_london : requestUrl exampleHost "key" (utf16 "London") = .ok londonUrl :=
  rfl

theorem requestUrl_oslo : requestUrl exampleHost "key" (utf16 "Oslo") = .ok osloUrl :=
  rfl

theorem submit_blank (host : Host) (apiKey : String) (s : State) (h : trim s.city = []) :
    submit host apiKey s = ({ s with error := "Please type a city name." }, none) := by
  simp [submit, h]

theorem submit_nonblank (host : Host) (apiKey : String) (s : State) (url : String)
    (h : trim s.city ≠ []) (hurl : requestUrl host apiKey s.city = .ok url) :
    submit host apiKey s = (⟨s.city, true, "", none⟩, some url) := by
  simp [submit, h, hurl]

theorem submit_uriError (host : Host) (apiKey : String) (s : State) (e : JSError)
    (h : trim s.city ≠ []) (hurl : requestUrl host apiKey s.city = .error e) :
    submit host apiKey s = (⟨s.city, false, messageOrDefault e, none⟩, none) := by
  simp [submit, h, hurl]

theorem fetchWeather_nonblank (host : Host) (apiKey : String) (net : String → FetchOutcome)
    (s : State) (url : String) (h : trim s.city ≠ [])
    (hurl : requestUrl host apiKey s.city = .ok url) :
    fetchWeather host apiKey net s =
      ((settle host ⟨s.city, true, "", none⟩ (net url)).1,
        .fetch url :: (settle host ⟨s.city, true, "", none⟩ (net url)).2) := by
  simp [fetchWeather, submit_nonblank host apiKey s url h hurl]

/-! ## The claims -/

/-- C3: for every query that is empty or consists only of white space, a
submit attempt sets `error` to exactly "Please type a city name.", leaves
`loading` (and `city`, `weather`) as they were, and makes no call on the
network layer, whatever the network would have answered. -/
theorem fetchWeather_blank (host : Host) (apiKey : String) (net : String → FetchOutcome)
    (s : State) (h : ∀ u ∈ s.city, isWhiteSpace u = true) :
    fetchWeather host apiKey net s =
      (⟨s.city, s.loading, "Please type a city name.", s.weather⟩, []) := by
  have ht : trim s.city = [] := (trim_eq_empty_iff s.city).2 h
  simp [fetchWeather, submit_blank host apiKey s ht]

/-- C9 (amended): for every query that is non-empty after trimming and every
prior state, when the query holds no unpaired surrogate the synchronous part
of a submit attempt leaves `city` unchanged, sets `loading` to true, `error`
to empty and `weather` to absent, and hands the request URL to `fetch`; when
the query holds an unpaired surrogate, `encodeURIComponent` throws before any
request is made and the synchronous part ends with `error` set to the
message of the `URIError`, `weather` absent and `loading` false. -/
theorem submit_clears_and_loads (host : Host) (apiKey : String) (s : State)
    (h : trim s.city ≠ []) :
    (isWellFormed s.city = true →
      ∃ url, requestUrl host apiKey s.city = .ok url ∧
        submit host apiKey s = (⟨s.city, true, "", none⟩, some url)) ∧
    (isWellFormed s.city = false →
      submit host apiKey s =
        (⟨s.city, false,
            if host.uriMalformedMessage = "" then "Error" else host.uriMalformedMessage,
            none⟩, none)) := by
  constructor
  · intro hwf
    obtain ⟨url, hurl⟩ := (requestUrl_wellFormed host apiKey s.city).1 hwf
    exact ⟨url, hurl, submit_nonblank host apiKey s url h hurl⟩
  · intro hwf
    have hurl := (requestUrl_wellFormed host apiKey s.city).2 hwf
    rw [submit_uriError host apiKey s _ h hurl]
    rfl

/-- C10: from every state the Clear handler yields `city` empty, `error`
empty and `weather` absent, and leaves `loading` unchanged. -/
theorem clear_resets (s : State) : clear s = ⟨[], s.loading, "", none⟩ := by
  rfl

/-- C2: for every non-blank query and every response whose status is not in
200..299, the attempt ends with `weather` absent, `loading` false and `error`
exactly "City not found" when the status is 404 and exactly "Failed to fetch
weather" otherwise; the only call on the network layer is the `fetch`, so the
body is never read, and the outcome is the same whatever the body holds. -/
theorem fetchWeather_http_failure (host : Host) (apiKey : String)
    (net : String → FetchOutcome) (s : State) (url : String) (status : Nat) (body : JsonOutcome)
    (hq : trim s.city ≠ []) (hurl : requestUrl host apiKey s.city = .ok url)
    (hnet : net url = .resolved ⟨status, body⟩)
    (hstatus : ¬ (200 ≤ status ∧ status ≤ 299)) :
    fetchWeather host apiKey net s =
      (⟨s.city, false,
          if status = 404 then "City not found" else "Failed to fetch weather", none⟩,
        [.fetch url]) := by
  have hok : Response.ok ⟨status, body⟩ = false := by
    simp only [Response.ok, Bool.and_eq_false_iff, decide_eq_false_iff_not]
    by_cases h1 : 200 ≤ status
    · exact Or.inr fun h2 => hstatus ⟨h1, h2⟩
    · exact Or.inl h1
  have hbody : tryBody host (.resolved ⟨status, body⟩) =
      ([], .error ⟨if status = 404 then "City not found" else "Failed to fetch weather"⟩) := by
    by_cases h404 : status = 404
    · subst h404
      simp [tryBody, hok]
    · simp [tryBody, hok, h404]
  rw [fetchWeather_nonblank host apiKey net s url hq hurl, hnet]
  simp only [settle, hbody, messageOrDefault]
  by_cases h404 : status = 404 <;> simp [h404]

/-- C8: for every non-blank query, when `fetch` rejects with an error `e`, or
a success response is received and reading its body as JSON rejects with `e`,
the attempt ends with `error` equal to `e.message` when that is non-empty and
exactly "Error" otherwise, with `weather` absent and `loading` false. -/
theorem fetchWeather_transport_failure (host : Host) (apiKey : String)
    (net : String → FetchOutcome) (s : State) (url : String) (e : JSError) (status : Nat)
    (hq : trim s.city ≠ []) (hurl : requestUrl host apiKey s.city = .ok url)
    (hnet : net url = .rejected e ∨
      (net url = .resolved ⟨status, .rejected e⟩ ∧
        200 ≤ status ∧ status ≤ 299)) :
    (fetchWeather host apiKey net s).1 =
      ⟨s.city, false, if e.message = "" then "Error" else e.message, none⟩ := by
  rw [fetchWeather_nonblank host apiKey net s url hq hurl]
  rcases hnet with h | ⟨h, h1, h2⟩
  · simp [h, settle, tryBody, messageOrDefault]
  · simp [h, settle, tryBody, messageOrDefault, Response.ok, h1, h2]

theorem getOwn_fields_of_not_mem (l : List (String × Option JSValue)) (k : String)
    (h : k ∉ l.map Prod.fst) : getOwn (fields l) k = none := by
  induction l with
  | nil => rfl
  | cons a rest ih =>
    obtain ⟨k1, v1⟩ := a
    simp only [List.map_cons, List.mem_cons, not_or] at h
    cases v1 with
    | none => simpa [fields] using ih h.2
    | some v =>
      have hne : ¬ k1 = k := fun e => h.1 e.symm
      simp [fields, getOwn, ih h.2, hne]

theorem getOwn_fields (l : List (String × Option JSValue)) (k : String) (v : Option JSValue)
    (hnd : (l.map Prod.fst).Nodup) (hmem : (k, v) ∈ l) : getOwn (fields l) k = v := by
  induction l with
  | nil => simp at hmem
  | cons a rest ih =>
    obtain ⟨k1, v1⟩ := a
    simp only [List.map_cons, List.nodup_cons] at hnd
    rcases List.mem_cons.1 hmem with h | h
    · obtain ⟨rfl, rfl⟩ := Prod.mk.inj h
      have hrest := getOwn_fields_of_not_mem rest k hnd.1
      cases v with
      | none => simpa [fields] using hrest
      | some w => simp [fields, getOwn, hrest]
    · have hk : k ∈ rest.map Prod.fst := List.mem_map.2 ⟨(k, v), h, rfl⟩
      have hne : ¬ k1 = k := fun e => hnd.1 (e ▸ hk)
      have hrest := ih hnd.2 h
      cases v1 with
      | none => simpa [fields] using hrest
      | some w =>
        cases v with
        | none => simp [fields, getOwn, hrest, hne]
        | some x => simp [fields, getOwn, hrest]

theorem Payload.getV_toJS (p : Payload) :
    getV p.toJS .name = orUndefined (p.name.map .string) ∧
    getV p.toJS .sys = orUndefined (p.sys.map SysInfo.toJS) ∧
    getV p.toJS .main = orUndefined (p.main.map MainInfo.toJS) ∧
    getV p.toJS .wind = orUndefined (p.wind.map WindInfo.toJS) ∧
    getV p.toJS .weather =
      orUndefined (p.weather.map fun l => .array (l.map Condition.toJS)) := by
  have hnd : (List.map Prod.fst
      [("name", p.name.map JSValue.string), ("sys", p.sys.map SysInfo.toJS),
        ("main", p.main.map MainInfo.toJS), ("wind", p.wind.map WindInfo.toJS),
        ("weather", p.weather.map fun l => JSValue.array (l.map Condition.toJS))]).Nodup := by
    simp
  refine ⟨?_, ?_, ?_, ?_, ?_⟩ <;>
    simp only [Payload.toJS, getV, Key.toString, orUndefined]
  · rw [getOwn_fields _ "name" (p.name.map .string) hnd (by simp)]
  · rw [getOwn_fields _ "sys" (p.sys.map SysInfo.toJS) hnd (by simp)]
  · rw [getOwn_fields _ "main" (p.main.map MainInfo.toJS) hnd (by simp)]
  · rw [getOwn_fields _ "wind" (p.wind.map WindInfo.toJS) hnd (by simp)]
  · rw [getOwn_fields _ "weather"
      (p.weather.map fun l => JSValue.array (l.map Condition.toJS)) hnd (by simp)]

theorem getV_country (x : Option SysInfo) :
    getV (orUndefined (x.map SysInfo.toJS)) .country =
      orUndefined ((x.bind (·.country)).map .string) := by
  rcases x with _ | ⟨_ | c⟩ <;>
    simp [orUndefined, getV, SysInfo.toJS, fields, getOwn, Key.toString]

theorem getV_main (x : Option MainInfo) :
    getV (orUndefined (x.map MainInfo.toJS)) .temp =
        orUndefined ((x.bind (·.temp)).map .number) ∧
      getV (orUndefined (x.map MainInfo.toJS)) .feels_like =
        orUndefined ((x.bind (·.feels_like)).map .number) ∧
      getV (orUndefined (x.map MainInfo.toJS)) .humidity =
        orUndefined ((x.bind (·.humidity)).map .number) := by
  rcases x with _ | ⟨_ | t, _ | f, _ | h⟩ <;>
    simp [orUndefined, getV, MainInfo.toJS, fields, getOwn, Key.toString]

theorem getV_speed (x : Option WindInfo) :
    getV (orUndefined (x.map WindInfo.toJS)) .speed =
      orUndefined ((x.bind (·.speed)).map .number) := by
  rcases x with _ | ⟨_ | c⟩ <;>
    simp [orUndefined, getV, WindInfo.toJS, fields, getOwn, Key.toString]

theorem getV_condition (x : Option (List Condition)) :
    getV (getV (orUndefined (x.map fun l => .array (l.map Condition.toJS))) .idx0)
        .description =
        orUndefined (((x.bind List.head?).bind (·.description)).map .string) ∧
      getV (getV (orUndefined (x.map fun l => .array (l.map Condition.toJS))) .idx0) .icon =
        orUndefined (((x.bind List.head?).bind (·.icon)).map .string) := by
  rcases x with _ | _ | ⟨⟨_ | d, _ | i⟩, rest⟩ <;>
    simp [orUndefined, getV, Condition.toJS, fields, getOwn, Key.toString]

theorem toNumber_orUndefined (host : Host) (x : Option JSNum) :
    toNumber host (orUndefined (x.map .number)) = .ok (x.getD .nan) := by
  cases x <;> simp [orUndefined, toNumber]

/-- The record `normalize` builds from an expected payload with missing
fields. -/
theorem Payload.normalize_toJS (host : Host) (p : Payload) :
    normalize host p.toJS = .ok
      { name := orUndefined (p.name.map .string)
        country := orUndefined ((p.sys.bind (·.country)).map .string)
        temp := .number (roundNumber ((p.main.bind (·.temp)).getD .nan))
        feels_like := .number (roundNumber ((p.main.bind (·.feels_like)).getD .nan))
        humidity := orUndefined ((p.main.bind (·.humidity)).map .number)
        wind := orUndefined ((p.wind.bind (·.speed)).map .number)
        description :=
          orUndefined (((p.weather.bind List.head?).bind (·.description)).map .string)
        icon := orUndefined (((p.weather.bind List.head?).bind (·.icon)).map .string) } := by
  obtain ⟨h1, h2, h3, h4, h5⟩ := p.getV_toJS
  have e : p.toJS = .object (fields [("name", p.name.map .string),
      ("sys", p.sys.map SysInfo.toJS), ("main", p.main.map MainInfo.toJS),
      ("wind", p.wind.map WindInfo.toJS),
      ("weather", p.weather.map fun l => .array (l.map Condition.toJS))]) := rfl
  rw [e, normalize_object, ← e, h1, h2, h3, h4, h5, getV_country, (getV_main p.main).1,
    (getV_main p.main).2.1, (getV_main p.main).2.2, getV_speed, (getV_condition p.weather).1,
    (getV_condition p.weather).2, toNumber_orUndefined, toNumber_orUndefined]
  rfl

theorem settle_json (host : Host) (s : State) (status : Nat) (data : JSValue)
    (hstatus : 200 ≤ status ∧ status ≤ 299) :
    settle host s (.resolved ⟨status, .resolved data⟩) =
      (match normalize host data with
        | .ok w => ⟨s.city, false, s.error, some w⟩
        | .error err => ⟨s.city, false, messageOrDefault err, s.weather⟩,
       [.json]) := by
  simp only [settle, tryBody, Response.ok, hstatus.1, hstatus.2, decide_True, Bool.and_self,
    Bool.not_true, Bool.false_eq_true, if_false]
  cases normalize host data <;> rfl

/-- A whole attempt on a non-blank query answered by a success response
whose body is a JSON object whose two temperatures convert to Numbers. -/
theorem fetchWeather_object (host : Host) (apiKey : String) (net : String → FetchOutcome)
    (s : State) (url : String) (status : Nat) (props : List (String × JSValue)) (t f : JSNum)
    (hq : trim s.city ≠ []) (hurl : requestUrl host apiKey s.city = .ok url)
    (hnet : net url = .resolved ⟨status, .resolved (.object props)⟩)
    (hstatus : 200 ≤ status ∧ status ≤ 299)
    (ht : toNumber host (getV (getV (.object props) .main) .temp) = .ok t)
    (hf : toNumber host (getV (getV (.object props) .main) .feels_like) = .ok f) :
    fetchWeather host apiKey net s =
      (⟨s.city, false, "",
          some { name := getV (.object props) .name
                 country := getV (getV (.object props) .sys) .country
                 temp := .number (roundNumber t)
                 feels_like := .number (roundNumber f)
                 humidity := getV (getV (.object props) .main) .humidity
                 wind := getV (getV (.object props) .wind) .speed
                 description := getV (getV (getV (.object props) .weather) .idx0) .description
                 icon := getV (getV (getV (.object props) .weather) .idx0) .icon }⟩,
        [.fetch url, .json]) := by
  rw [fetchWeather_nonblank host apiKey net s url hq hurl, hnet,
    settle_json host _ status _ hstatus, normalize_object, ht, hf]
  rfl

theorem messageOrDefault_ne_empty (e : JSError) : messageOrDefault e ≠ "" := by
  unfold messageOrDefault
  by_cases h : e.message = ""
  · simp [h]
  · simp [h]

theorem roundNumber_toRat (x : JSNum) (q : ℚ) (h : x.toRat? = some q) :
    (roundNumber x).toRat? = some ((⌊q + 1 / 2⌋ : ℤ) : ℚ) := by
  cases x with
  | nan => simp [JSNum.toRat?] at h
  | posInf => simp [JSNum.toRat?] at h
  | negInf => simp [JSNum.toRat?] at h
  | negZero =>
    have hq : q = 0 := by simpa [JSNum.toRat?] using h.symm
    have h0 : ⌊q + 1 / 2⌋ = 0 := by
      rw [Int.floor_eq_iff, hq]
      constructor <;> norm_num
    simp only [roundNumber, JSNum.toRat?, h0, Int.cast_zero]
  | fin r =>
    have hq : r = q := by simpa [JSNum.toRat?] using h
    subst hq
    by_cases h : r < 0 ∧ -1 / 2 ≤ r
    · have h0 : ⌊r + 1 / 2⌋ = 0 := by
        rw [Int.floor_eq_iff]
        constructor <;> push_cast <;> linarith [h.1, h.2]
      simp only [roundNumber, h, and_self, if_true, JSNum.toRat?, h0, Int.cast_zero]
    · simp [roundNumber, JSNum.toRat?, h]

/-- C1 (amended): for every non-blank query and every success response whose
body parses to a JSON object in which `main?.temp` and `main?.feels_like`
convert to Numbers without error, the attempt ends with `weather` set to the
record of lines 38-47 (name, country, rounded temp and feels_like, humidity,
wind, description and icon of the first weather element), `error` empty and
`loading` false, after one `fetch` and one read of the body. -/
theorem fetchWeather_success (host : Host) (apiKey : String) (net : String → FetchOutcome)
    (s : State) (url : String) (status : Nat) (props : List (String × JSValue)) (t f : JSNum)
    (hq : trim s.city ≠ []) (hurl : requestUrl host apiKey s.city = .ok url)
    (hnet : net url = .resolved ⟨status, .resolved (.object props)⟩)
    (hstatus : 200 ≤ status ∧ status ≤ 299)
    (ht : toNumber host (getV (getV (.object props) .main) .temp) = .ok t)
    (hf : toNumber host (getV (getV (.object props) .main) .feels_like) = .ok f) :
    fetchWeather host apiKey net s =
      (⟨s.city, false, "",
          some { name := getV (.object props) .name
                 country := getV (getV (.object props) .sys) .country
                 temp := .number (roundNumber t)
                 feels_like := .number (roundNumber f)
                 humidity := getV (getV (.object props) .main) .humidity
                 wind := getV (getV (.object props) .wind) .speed
                 description := getV (getV (getV (.object props) .weather) .idx0) .description
                 icon := getV (getV (getV (.object props) .weather) .idx0) .icon }⟩,
        [.fetch url, .json]) := by
  exact fetchWeather_object host apiKey net s url status props t f hq hurl hnet hstatus ht hf

/-- The London scenario: query "London", status 200, the London payload. The
displayed record is name "London", country "GB", temp 15, feels_like 15,
humidity 80, wind 3.1, description "cloudy", icon "04d". -/
theorem fetchWeather_success_london :
    fetchWeather exampleHost "key"
        (fun _ => .resolved ⟨200, .resolved (.object londonProps)⟩)
        ⟨utf16 "London", false, "", none⟩ =
      (⟨utf16 "London", false, "",
          some { name := .string "London"
                 country := .string "GB"
                 temp := .number (.fin 15)
                 feels_like := .number (.fin 15)
                 humidity := .number (.fin 80)
                 wind := .number (.fin 3.1)
                 description := .string "cloudy"
                 icon := .string "04d" }⟩,
        [.fetch londonUrl, .json]) := by
  have h := fetchWeather_success exampleHost "key"
    (fun _ => .resolved ⟨200, .resolved (.object londonProps)⟩)
    ⟨utf16 "London", false, "", none⟩ londonUrl 200 londonProps (.fin 15.2) (.fin 14.8)
    (by decide) requestUrl_london rfl (by decide)
    (by simp [londonProps, getV, getOwn, Key.toString, toNumber])
    (by simp [londonProps, getV, getOwn, Key.toString, toNumber])
  rw [h]
  have r1 : roundNumber (.fin 15.2) = .fin 15 := by norm_num [roundNumber, Int.floor_eq_iff]
  have r2 : roundNumber (.fin 14.8) = .fin 15 := by norm_num [roundNumber, Int.floor_eq_iff]
  simp [londonProps, getV, getOwn, Key.toString, r1, r2]

/-- C1 as stated fails: the body `{"name": "London", "main": {"temp":
{"toString": 1}, "feels_like": 14.8}}` parses to a JSON object, yet
`Math.round(data.main?.temp)` throws (neither `valueOf` nor `toString` of
that object yields a primitive: the own `toString` is not callable), so the
attempt ends with `weather` absent and `error` set to the `TypeError`
message. -/
theorem fetchWeather_success_counterexample :
    fetchWeather exampleHost "key"
        (fun _ => .resolved ⟨200, .resolved (.object unconvertibleProps)⟩)
        ⟨utf16 "London", false, "", none⟩ =
      (⟨utf16 "London", false, "Cannot convert object to primitive value", none⟩,
        [.fetch londonUrl, .json]) := by
  rw [fetchWeather_nonblank _ _ _ _ londonUrl (by decide) requestUrl_london,
    settle_json _ _ 200 _ (by decide), normalize_object]
  simp [unconvertibleProps, getV, getOwn, Key.toString, toNumber, toStringJS, exampleHost,
    Except.bind, messageOrDefault]

/-- C6: for every non-blank query and every success response whose body is
the expected payload with any subset of its fields missing (an empty or
missing weather list included), normalisation raises no error: `weather` is
set, `error` is empty and `loading` is false when the attempt is over, and
each of country, humidity, wind, description and icon is its source value
when present and `undefined` when its source is missing. -/
theorem fetchWeather_missing_fields (host : Host) (apiKey : String)
    (net : String → FetchOutcome) (s : State) (url : String) (status : Nat) (p : Payload)
    (hq : trim s.city ≠ []) (hurl : requestUrl host apiKey s.city = .ok url)
    (hnet : net url = .resolved ⟨status, .resolved p.toJS⟩)
    (hstatus : 200 ≤ status ∧ status ≤ 299) :
    ∃ w : Weather,
      fetchWeather host apiKey net s =
        (⟨s.city, false, "", some w⟩, [.fetch url, .json]) ∧
      w.country = orUndefined ((p.sys.bind (·.country)).map .string) ∧
      w.humidity = orUndefined ((p.main.bind (·.humidity)).map .number) ∧
      w.wind = orUndefined ((p.wind.bind (·.speed)).map .number) ∧
      w.description =
        orUndefined (((p.weather.bind List.head?).bind (·.description)).map .string) ∧
      w.icon = orUndefined (((p.weather.bind List.head?).bind (·.icon)).map .string) := by
  refine ⟨{ name := orUndefined (p.name.map .string)
            country := orUndefined ((p.sys.bind (·.country)).map .string)
            temp := .number (roundNumber ((p.main.bind (·.temp)).getD .nan))
            feels_like := .number (roundNumber ((p.main.bind (·.feels_like)).getD .nan))
            humidity := orUndefined ((p.main.bind (·.humidity)).map .number)
            wind := orUndefined ((p.wind.bind (·.speed)).map .number)
            description :=
              orUndefined (((p.weather.bind List.head?).bind (·.description)).map .string)
            icon := orUndefined (((p.weather.bind List.head?).bind (·.icon)).map .string) },
    ?_, rfl, rfl, rfl, rfl, rfl⟩
  rw [fetchWeather_nonblank host apiKey net s url hq hurl, hnet,
    settle_json host _ status _ hstatus, Payload.normalize_toJS]

/-- A payload with only a name and an empty weather list: every optional
field of the record is `undefined`. -/
theorem fetchWeather_missing_fields_bare :
    ∃ w : Weather,
      fetchWeather exampleHost "key"
          (fun _ => .resolved ⟨200, .resolved (Payload.toJS ⟨some "Oslo", none, none, none, some []⟩)⟩)
          ⟨utf16 "Oslo", false, "", none⟩ =
        (⟨utf16 "Oslo", false, "", some w⟩, [.fetch osloUrl, .json]) ∧
      w.country = .undefined ∧ w.humidity = .undefined ∧ w.wind = .undefined ∧
      w.description = .undefined ∧ w.icon = .undefined :=
  fetchWeather_missing_fields exampleHost "key"
    (fun _ => .resolved ⟨200, .resolved (Payload.toJS ⟨some "Oslo", none, none, none, some []⟩)⟩)
    ⟨utf16 "Oslo", false, "", none⟩ osloUrl 200 ⟨some "Oslo", none, none, none, some []⟩
    (by decide) requestUrl_oslo rfl (by decide)

/-- C7 (amended): for every non-blank query and every success response whose
body parses to a JSON object: when the read `data.main?.temp` is `undefined`
(the field or the whole `main` object is missing) and `data.main?.feels_like`
converts to a Number without error, the attempt ends with `weather` set to a
record whose temp is the Number `NaN`, which is not `undefined`; likewise,
with the two fields exchanged, for feels_like. The other fields of that
record are the values read from the body, so a missing humidity, wind,
country, description or icon is `undefined`. -/
theorem fetchWeather_absent_temperature (host : Host) (apiKey : String)
    (net : String → FetchOutcome) (s : State) (url : String) (status : Nat)
    (props : List (String × JSValue))
    (hq : trim s.city ≠ []) (hurl : requestUrl host apiKey s.city = .ok url)
    (hnet : net url = .resolved ⟨status, .resolved (.object props)⟩)
    (hstatus : 200 ≤ status ∧ status ≤ 299) :
    (∀ f : JSNum, getV (getV (.object props) .main) .temp = .undefined →
      toNumber host (getV (getV (.object props) .main) .feels_like) = .ok f →
      fetchWeather host apiKey net s =
        (⟨s.city, false, "",
            some { name := getV (.object props) .name
                   country := getV (getV (.object props) .sys) .country
                   temp := .number .nan
                   feels_like := .number (roundNumber f)
                   humidity := getV (getV (.object props) .main) .humidity
                   wind := getV (getV (.object props) .wind) .speed
                   description :=
                     getV (getV (getV (.object props) .weather) .idx0) .description
                   icon := getV (getV (getV (.object props) .weather) .idx0) .icon }⟩,
          [.fetch url, .json])) ∧
    (∀ t : JSNum, getV (getV (.object props) .main) .feels_like = .undefined →
      toNumber host (getV (getV (.object props) .main) .temp) = .ok t →
      fetchWeather host apiKey net s =
        (⟨s.city, false, "",
            some { name := getV (.object props) .name
                   country := getV (getV (.object props) .sys) .country
                   temp := .number (roundNumber t)
                   feels_like := .number .nan
                   humidity := getV (getV (.object props) .main) .humidity
                   wind := getV (getV (.object props) .wind) .speed
                   description :=
                     getV (getV (getV (.object props) .weather) .idx0) .description
                   icon := getV (getV (getV (.object props) .weather) .idx0) .icon }⟩,
          [.fetch url, .json])) ∧
    JSValue.number .nan ≠ JSValue.undefined := by
  refine ⟨?_, ?_, by simp⟩
  · intro f habs hf
    have ht : toNumber host (getV (getV (.object props) .main) .temp) = .ok .nan := by
      rw [habs]; rfl
    rw [fetchWeather_object host apiKey net s url status props .nan f hq hurl hnet hstatus
      ht hf]
    rfl
  · intro t habs ht
    have hf : toNumber host (getV (getV (.object props) .main) .feels_like) = .ok .nan := by
      rw [habs]; rfl
    rw [fetchWeather_object host apiKey net s url status props t .nan hq hurl hnet hstatus
      ht hf]
    rfl

/-- The instance of C7 (amended) at the body `{"main": {"feels_like": 14.8}}`
with a name: temp is missing, feels_like converts, and the record has temp
`NaN`, feels_like 15 and the missing humidity `undefined`. -/
theorem fetchWeather_absent_temperature_feels_only :
    fetchWeather exampleHost "key"
        (fun _ => .resolved ⟨200, .resolved (.object feelsOnlyProps)⟩)
        ⟨utf16 "London", false, "", none⟩ =
      (⟨utf16 "London", false, "",
          some { name := .string "London"
                 country := .undefined
                 temp := .number .nan
                 feels_like := .number (.fin 15)
                 humidity := .undefined
                 wind := .undefined
                 description := .undefined
                 icon := .undefined }⟩,
        [.fetch londonUrl, .json]) := by
  have h := (fetchWeather_absent_temperature exampleHost "key"
    (fun _ => .resolved ⟨200, .resolved (.object feelsOnlyProps)⟩)
    ⟨utf16 "London", false, "", none⟩ londonUrl 200 feelsOnlyProps
    (by decide) requestUrl_london rfl (by decide)).1 (.fin 14.8)
    (by simp [feelsOnlyProps, getV, getOwn, Key.toString])
    (by simp [feelsOnlyProps, getV, getOwn, Key.toString, toNumber])
  rw [h]
  have r2 : roundNumber (.fin 14.8) = .fin 15 := by norm_num [roundNumber, Int.floor_eq_iff]
  simp [feelsOnlyProps, getV, getOwn, Key.toString, r2]

/-- C7 as stated fails: for the success body `{"name": "London"}`, where the
whole `main` object is missing, the normalised temp and feels_like are the
Number `NaN`, which is not `undefined`, while the other missing fields are
`undefined`. -/
theorem fetchWeather_absent_temperature_counterexample :
    (fetchWeather exampleHost "key"
        (fun _ => .resolved ⟨200, .resolved (.object nameOnlyProps)⟩)
        ⟨utf16 "London", false, "", none⟩).1 =
      ⟨utf16 "London", false, "",
        some { name := .string "London"
               country := .undefined
               temp := .number .nan
               feels_like := .number .nan
               humidity := .undefined
               wind := .undefined
               description := .undefined
               icon := .undefined }⟩ ∧
    JSValue.number .nan ≠ JSValue.undefined := by
  refine ⟨?_, by simp⟩
  rw [fetchWeather_object exampleHost "key" _ _ londonUrl 200 nameOnlyProps .nan .nan
    (by decide) requestUrl_london rfl (by decide)
    (by simp [nameOnlyProps, getV, getOwn, Key.toString, toNumber])
    (by simp [nameOnlyProps, getV, getOwn, Key.toString, toNumber])]
  simp [nameOnlyProps, getV, getOwn, Key.toString, roundNumber]

/-- C5 (amended): for every Number `x` of `main.temp` and `y` of
`main.feels_like` with a mathematical value (`q`, `p`), negative values and
exact halves included, the normalised temp and feels_like are each,
independently, the source value rounded to the nearest integer with ties
rounded toward positive infinity: the integer `n` with `q - 1/2 < n ≤ q + 1/2`
(2.5 gives 3, -2.5 gives -2). -/
theorem fetchWeather_rounds_half_up (host : Host) (apiKey : String)
    (net : String → FetchOutcome) (s : State) (url : String) (status : Nat)
    (props : List (String × JSValue)) (x y : JSNum) (q p : ℚ)
    (hq : trim s.city ≠ []) (hurl : requestUrl host apiKey s.city = .ok url)
    (hnet : net url = .resolved ⟨status, .resolved (.object props)⟩)
    (hstatus : 200 ≤ status ∧ status ≤ 299)
    (ht : getV (getV (.object props) .main) .temp = .number x)
    (hf : getV (getV (.object props) .main) .feels_like = .number y)
    (hx : x.toRat? = some q) (hy : y.toRat? = some p) :
    ∃ (w : Weather) (a b : JSNum) (n m : ℤ),
      (fetchWeather host apiKey net s).1 = ⟨s.city, false, "", some w⟩ ∧
      w.temp = .number a ∧ a.toRat? = some (n : ℚ) ∧ q - 1 / 2 < n ∧ (n : ℚ) ≤ q + 1 / 2 ∧
      w.feels_like = .number b ∧ b.toRat? = some (m : ℚ) ∧ p - 1 / 2 < m ∧
        (m : ℚ) ≤ p + 1 / 2 := by
  have ht2 : toNumber host (getV (getV (.object props) .main) .temp) = .ok x := by
    rw [ht]; rfl
  have hf2 : toNumber host (getV (getV (.object props) .main) .feels_like) = .ok y := by
    rw [hf]; rfl
  refine ⟨{ name := getV (.object props) .name
            country := getV (getV (.object props) .sys) .country
            temp := .number (roundNumber x)
            feels_like := .number (roundNumber y)
            humidity := getV (getV (.object props) .main) .humidity
            wind := getV (getV (.object props) .wind) .speed
            description := getV (getV (getV (.object props) .weather) .idx0) .description
            icon := getV (getV (getV (.object props) .weather) .idx0) .icon },
    roundNumber x, roundNumber y, ⌊q + 1 / 2⌋, ⌊p + 1 / 2⌋, ?_, rfl,
    roundNumber_toRat x q hx, ?_, Int.floor_le _, rfl, roundNumber_toRat y p hy, ?_,
    Int.floor_le _⟩
  · rw [fetchWeather_object host apiKey net s url status props x y hq hurl hnet hstatus ht2
      hf2]
  · have := Int.lt_floor_add_one (q + 1 / 2)
    linarith
  · have := Int.lt_floor_add_one (p + 1 / 2)
    linarith

/-- The instance of C5 (amended) at temp -2.5 and feels_like 2.5. -/
theorem fetchWeather_rounds_half_up_halves :
    ∃ (w : Weather) (a b : JSNum) (n m : ℤ),
      (fetchWeather exampleHost "key"
          (fun _ => .resolved ⟨200, .resolved (.object halvesProps)⟩)
          ⟨utf16 "Oslo", false, "", none⟩).1 = ⟨utf16 "Oslo", false, "", some w⟩ ∧
      w.temp = .number a ∧ a.toRat? = some (n : ℚ) ∧ (-5 / 2 : ℚ) - 1 / 2 < n ∧
        (n : ℚ) ≤ -5 / 2 + 1 / 2 ∧
      w.feels_like = .number b ∧ b.toRat? = some (m : ℚ) ∧ (5 / 2 : ℚ) - 1 / 2 < m ∧
        (m : ℚ) ≤ 5 / 2 + 1 / 2 :=
  fetchWeather_rounds_half_up exampleHost "key"
    (fun _ => .resolved ⟨200, .resolved (.object halvesProps)⟩) ⟨utf16 "Oslo", false, "", none⟩
    osloUrl 200 halvesProps (.fin (-5 / 2)) (.fin (5 / 2)) (-5 / 2) (5 / 2) (by decide)
    requestUrl_oslo rfl (by decide)
    (by simp [halvesProps, getV, getOwn, Key.toString])
    (by simp [halvesProps, getV, getOwn, Key.toString]) rfl rfl

/-- C5 as stated fails: for the success body with temp -2.5 and feels_like
2.5 the normalised temp is -2, while rounding -2.5 with ties away from zero
gives -3 (feels_like 2.5 gives 3 either way). -/
theorem fetchWeather_rounds_counterexample :
    (fetchWeather exampleHost "key"
        (fun _ => .resolved ⟨200, .resolved (.object halvesProps)⟩)
        ⟨utf16 "Oslo", false, "", none⟩).1 =
      ⟨utf16 "Oslo", false, "",
        some { name := .string "Oslo"
               country := .undefined
               temp := .number (.fin (-2))
               feels_like := .number (.fin 3)
               humidity := .undefined
               wind := .undefined
               description := .undefined
               icon := .undefined }⟩ ∧
    roundHalfAwayFromZero (-5 / 2) = -3 ∧ roundHalfAwayFromZero (5 / 2) = 3 := by
  refine ⟨?_, ?_, ?_⟩
  · rw [fetchWeather_object exampleHost "key" _ _ osloUrl 200 halvesProps (.fin (-5 / 2))
      (.fin (5 / 2)) (by decide) requestUrl_oslo rfl (by decide)
      (by simp [halvesProps, getV, getOwn, Key.toString, toNumber])
      (by simp [halvesProps, getV, getOwn, Key.toString, toNumber])]
    have r1 : roundNumber (.fin (-5 / 2)) = .fin (-2) := by
      norm_num [roundNumber, Int.floor_eq_iff]
    have r2 : roundNumber (.fin (5 / 2)) = .fin 3 := by
      norm_num [roundNumber, Int.floor_eq_iff]
    simp [halvesProps, getV, getOwn, Key.toString, r1, r2]
  · norm_num [roundHalfAwayFromZero, Int.floor_eq_iff]
  · norm_num [roundHalfAwayFromZero, Int.floor_eq_iff]

/-- C4 (amended): from every starting state, an attempt on a non-blank query
that ends in failure (an error while building the request URL, a non-success
status, a transport or parse failure, or an error while normalising) leaves
`weather` absent and `error` set, and one that ends in success leaves `error`
empty and `weather` set to the new record, so after such an attempt `error`
and `weather` are never both present; an attempt on a blank query sets
`error` and leaves `weather` as it was. -/
theorem fetchWeather_error_or_weather (host : Host) (apiKey : String)
    (net : String → FetchOutcome) (s : State) :
    (trim s.city = [] →
      (fetchWeather host apiKey net s).1.error = "Please type a city name." ∧
      (fetchWeather host apiKey net s).1.weather = s.weather) ∧
    (trim s.city ≠ [] →
      (match requestUrl host apiKey s.city with
        | .error e =>
          (fetchWeather host apiKey net s).1.weather = none ∧
          (fetchWeather host apiKey net s).1.error = messageOrDefault e ∧
          (fetchWeather host apiKey net s).1.error ≠ ""
        | .ok url =>
          match (tryBody host (net url)).2 with
          | .error e =>
            (fetchWeather host apiKey net s).1.weather = none ∧
            (fetchWeather host apiKey net s).1.error = messageOrDefault e ∧
            (fetchWeather host apiKey net s).1.error ≠ ""
          | .ok w =>
            (fetchWeather host apiKey net s).1.error = "" ∧
            (fetchWeather host apiKey net s).1.weather = some w) ∧
      ¬ ((fetchWeather host apiKey net s).1.error ≠ "" ∧
          (fetchWeather host apiKey net s).1.weather ≠ none)) := by
  constructor
  · intro h
    simp [fetchWeather, submit_blank host apiKey s h]
  · intro h
    cases hurl : requestUrl host apiKey s.city with
    | error e =>
      simp [fetchWeather, submit_uriError host apiKey s e h hurl, messageOrDefault_ne_empty e]
    | ok url =>
      rw [fetchWeather_nonblank host apiKey net s url h hurl]
      simp only [settle]
      cases hr : (tryBody host (net url)).2 with
      | error e => simp [messageOrDefault_ne_empty e]
      | ok w => simp

/-- The instance of C4 (amended) at a failed request on the query "London"
with the London record displayed: the record is cleared and the error of
the rejected request is set. -/
theorem fetchWeather_error_or_weather_rejected :
    (fetchWeather exampleHost "key" (fun _ => .rejected ⟨"Failed to fetch"⟩)
        ⟨utf16 "London", false, "", some londonRecord⟩).1.weather = none ∧
    (fetchWeather exampleHost "key" (fun _ => .rejected ⟨"Failed to fetch"⟩)
        ⟨utf16 "London", false, "", some londonRecord⟩).1.error = "Failed to fetch" := by
  have h := (fetchWeather_error_or_weather exampleHost "key"
    (fun _ => .rejected ⟨"Failed to fetch"⟩) ⟨utf16 "London", false, "", some londonRecord⟩).2
    (by decide)
  have h1 := h.1
  simp only [requestUrl_london] at h1
  exact ⟨h1.1, h1.2.1⟩

/-- C4 as stated fails: with the London record displayed and the query made
blank, a submit attempt fails validation and ends with `error` set while
`weather` still holds the London record, so both are present. -/
theorem fetchWeather_error_or_weather_counterexample :
    fetchWeather exampleHost "key" (fun _ => .rejected ⟨"unreachable"⟩)
        ⟨utf16 "  ", false, "", some londonRecord⟩ =
      (⟨utf16 "  ", false, "Please type a city name.", some londonRecord⟩, []) := by
  simp [fetchWeather,
    submit_blank exampleHost "key" ⟨utf16 "  ", false, "", some londonRecord⟩ (by decide)]

/-- The instance of C3 at the query " \t " in a state that is not loading. -/
theorem fetchWeather_blank_spaces :
    fetchWeather exampleHost "key" (fun _ => .rejected ⟨"unreachable"⟩)
        ⟨utf16 " \t ", false, "", none⟩ =
      (⟨utf16 " \t ", false, "Please type a city name.", none⟩, []) :=
  fetchWeather_blank exampleHost "key" (fun _ => .rejected ⟨"unreachable"⟩)
    ⟨utf16 " \t ", false, "", none⟩ (by decide)

/-- The instance of C9 (amended) at the query "London" with a stale error
and the London record displayed: both are cleared, `loading` is true and
the London URL is handed to `fetch`. -/
theorem submit_clears_and_loads_london :
    submit exampleHost "key" ⟨utf16 "London", false, "City not found", some londonRecord⟩ =
      (⟨utf16 "London", true, "", none⟩, some londonUrl) := by
  obtain ⟨url, hurl, hs⟩ := (submit_clears_and_loads exampleHost "key"
    ⟨utf16 "London", false, "City not found", some londonRecord⟩ (by decide)).1 (by decide)
  have e : url = londonUrl := by
    have h2 : Except.ok url = (Except.ok londonUrl : Except JSError String) :=
      hurl.symm.trans requestUrl_london
    exact Except.ok.inj h2
  rw [hs, e]

/-- C9 as stated fails: the query made of the letter a and the unpaired
surrogate `0xD800` is not empty after trimming, yet `encodeURIComponent`
throws on it inside the `try`, so the synchronous part ends with `loading`
false and `error` "URI malformed", and no request is issued. -/
theorem submit_clears_and_loads_counterexample :
    trim loneSurrogateQuery ≠ [] ∧
    submit exampleHost "key" ⟨loneSurrogateQuery, false, "", none⟩ =
      (⟨loneSurrogateQuery, false, "URI malformed", none⟩, none) := by
  refine ⟨by decide, ?_⟩
  rw [submit_uriError exampleHost "key" ⟨loneSurrogateQuery, false, "", none⟩
    ⟨"URI malformed"⟩ (by decide) rfl]
  rfl

/-- The instances of C2 at status 404 and at status 500, query "London". -/
theorem fetchWeather_http_failure_404_500 :
    fetchWeather exampleHost "key"
        (fun _ => .resolved ⟨404, .resolved (.object londonProps)⟩)
        ⟨utf16 "London", false, "", none⟩ =
      (⟨utf16 "London", false, "City not found", none⟩, [.fetch londonUrl]) ∧
    fetchWeather exampleHost "key"
        (fun _ => .resolved ⟨500, .resolved (.object londonProps)⟩)
        ⟨utf16 "London", false, "", none⟩ =
      (⟨utf16 "London", false, "Failed to fetch weather", none⟩, [.fetch londonUrl]) :=
  ⟨fetchWeather_http_failure exampleHost "key"
      (fun _ => .resolved ⟨404, .resolved (.object londonProps)⟩)
      ⟨utf16 "London", false, "", none⟩ londonUrl 404 (.resolved (.object londonProps))
      (by decide) requestUrl_london rfl (by decide),
   fetchWeather_http_failure exampleHost "key"
      (fun _ => .resolved ⟨500, .resolved (.object londonProps)⟩)
      ⟨utf16 "London", false, "", none⟩ londonUrl 500 (.resolved (.object londonProps))
      (by decide) requestUrl_london rfl (by decide)⟩

/-- The instances of C8 at a rejected `fetch` with a message, and at a
success response whose body fails to parse with an empty message. -/
theorem fetchWeather_transport_failure_samples :
    (fetchWeather exampleHost "key" (fun _ => .rejected ⟨"Failed to fetch"⟩)
        ⟨utf16 "London", false, "", none⟩).1 =
      ⟨utf16 "London", false, "Failed to fetch", none⟩ ∧
    (fetchWeather exampleHost "key" (fun _ => .resolved ⟨200, .rejected ⟨""⟩⟩)
        ⟨utf16 "London", false, "", none⟩).1 = ⟨utf16 "London", false, "Error", none⟩ :=
  ⟨fetchWeather_transport_failure exampleHost "key" (fun _ => .rejected ⟨"Failed to fetch"⟩)
      ⟨utf16 "London", false, "", none⟩ londonUrl ⟨"Failed to fetch"⟩ 0 (by decide)
      requestUrl_london (Or.inl rfl),
   fetchWeather_transport_failure exampleHost "key"
      (fun _ => .resolved ⟨200, .rejected ⟨""⟩⟩)
      ⟨utf16 "London", false, "", none⟩ londonUrl ⟨""⟩ 200 (by decide) requestUrl_london
      (Or.inr ⟨rfl, by decide⟩)⟩

end Weatherly
